import Mathlib

/-!
Shallow embedding of the jq-bridge repository (src/lib.rs, src/main.rs):
the command dispatcher, the subprocess launch descriptor (`CommandBuilder`),
the redirection engine (`CommandBuilder::apply`), the process registry
(`Context`), and the sentinel exit-code logic of the bridge loop.

OS interaction (directory listings, child exit statuses, random draws,
stream copies) is supplied by a `World` oracle structure; the filesystem is
a flat path-to-content association list; everything the repository computes
itself (flag logic, open options, environment construction, join order,
registry bookkeeping, JSON shaping and serialization) is translated from
the source.
-/

set_option autoImplicit false

/-- Option-of-bool test from src/lib.rs `IsTrue`: `is_some_and(identity)`. -/
def is_true (o : Option Bool) : Bool :=
  match o with
  | some b => b
  | none => false

/-- Option-of-bool test from src/lib.rs `IsFalse`: `is_none_or(not)`. -/
def is_false (o : Option Bool) : Bool :=
  match o with
  | some b => !b
  | none => true

/-- Generic association-list lookup (models map lookup keyed by strings). -/
def lookupKey {α : Type} (k : String) : List (String × α) → Option α
  | [] => none
  | p :: rest => if p.1 = k then some p.2 else lookupKey k rest

/-- Generic association-list insert-or-replace (models map insert). -/
def upsertKey {α : Type} (k : String) (v : α) : List (String × α) → List (String × α)
  | [] => [(k, v)]
  | p :: rest => if p.1 = k then (k, v) :: rest else p :: upsertKey k v rest

/-- Generic association-list key removal (models map remove). -/
def eraseKey {α : Type} (k : String) : List (String × α) → List (String × α)
  | [] => []
  | p :: rest => if p.1 = k then rest else p :: eraseKey k rest

/-- Flat filesystem model: path to file content. -/
abbrev FS := List (String × String)

/-- Model of an OS string or path: either valid UTF-8 or not, carrying the
lossy rendering used by the `InvalidString` error in src/lib.rs. -/
inductive OsString where
  | utf8 (s : String)
  | nonUtf8 (lossy : String)
deriving DecidableEq

/-- I/O error kinds relevant to the modelled std library calls. -/
inductive IoErr where
  | NotFound
  | PermissionDenied
  | AlreadyExists
  | InvalidInput
  | Other
deriving DecidableEq

/-- Error type from src/lib.rs `enum Error`. `InvalidProcessorId` carries the
u32 handle, modelled as Nat (no arithmetic is performed on it). -/
inductive Error where
  | IoError (e : IoErr)
  | JsonError (msg : String)
  | InvalidString (lossy : String)
  | InvalidProcessorId (id : Nat)
deriving DecidableEq

/-- Sentinel from src/lib.rs line 223: `pub const NONE_EXIT_CODE: i32 = 250`. -/
def NONE_EXIT_CODE : Int := 250

/-- Substitution applied at every `.code().unwrap_or(NONE_EXIT_CODE)` site. -/
def exitCodeOrNone (c : Option Int) : Int :=
  c.getD NONE_EXIT_CODE

/-- Final exit code of the bridge from src/main.rs lines 67-71: the peer
process exit code, or `NONE_EXIT_CODE` when the status carries no code. -/
def runJqExitCode (peerStatus : Option Int) : Int :=
  peerStatus.getD NONE_EXIT_CODE

/-- JSON values (serde_json `Value`); numbers restricted to the integers the
modelled commands produce. -/
inductive Value where
  | null
  | bool (b : Bool)
  | num (n : Int)
  | str (s : String)
  | arr (xs : List Value)
  | obj (fields : List (String × Value))

/-- String view of a JSON value (serde_json `Value::as_str`). -/
def Value.as_str : Value → Option String
  | .str s => some s
  | _ => none

/-- Hexadecimal digit used by the JSON string escaper. -/
def hexDigit (n : Nat) : Char :=
  if n < 10 then Char.ofNat (48 + n) else Char.ofNat (87 + n)

/-- Escaping of one character inside a serde_json string literal. -/
def escapeChar (c : Char) : String :=
  if c = '"' then "\\\""
  else if c = '\\' then "\\\\"
  else if c = '\x08' then "\\b"
  else if c = '\x0c' then "\\f"
  else if c = '\n' then "\\n"
  else if c = '\r' then "\\r"
  else if c = '\t' then "\\t"
  else if c.toNat < 32 then
    "\\u00" ++ String.singleton (hexDigit (c.toNat / 16))
      ++ String.singleton (hexDigit (c.toNat % 16))
  else String.singleton c

/-- Escaped body of a serde_json string literal. -/
def escapeString (s : String) : String :=
  String.join (s.toList.map escapeChar)

/-- Serde_json rendering of a string value: quoted and escaped. -/
def quoteStr (s : String) : String :=
  "\"" ++ escapeString s ++ "\""

mutual

/-- Compact serde_json serialization (`serde_json::to_writer`). -/
def toJson : Value → String
  | .null => "null"
  | .bool b => if b then "true" else "false"
  | .num n => toString n
  | .str s => quoteStr s
  | .arr xs => "[" ++ toJsonItems xs ++ "]"
  | .obj fs => "\x7b" ++ toJsonFields fs ++ "\x7d"

/-- Comma-joined compact serialization of array items. -/
def toJsonItems : List Value → String
  | [] => ""
  | [v] => toJson v
  | v :: vs => toJson v ++ "," ++ toJsonItems vs

/-- Comma-joined compact serialization of object fields. -/
def toJsonFields : List (String × Value) → String
  | [] => ""
  | [f] => quoteStr f.1 ++ ":" ++ toJson f.2
  | f :: fs => quoteStr f.1 ++ ":" ++ toJson f.2 ++ "," ++ toJsonFields fs

end

/-- Indentation of `n` spaces for the pretty serializer. -/
def indentStr (n : Nat) : String :=
  String.join (List.replicate n " ")

mutual

/-- Indented serde_json serialization (`serde_json::to_writer_pretty`,
two-space indentation) at a given indent level. -/
def toJsonPrettyAt : Nat → Value → String
  | _, .null => "null"
  | _, .bool b => if b then "true" else "false"
  | _, .num n => toString n
  | _, .str s => quoteStr s
  | _, .arr [] => "[]"
  | ind, .arr (x :: xs) =>
      "[\n" ++ prettyItems (ind + 2) x xs ++ "\n" ++ indentStr ind ++ "]"
  | _, .obj [] => "\x7b\x7d"
  | ind, .obj (f :: fs) =>
      "\x7b\n" ++ prettyFields (ind + 2) f fs ++ "\n" ++ indentStr ind ++ "\x7d"
termination_by i v => sizeOf v

/-- Newline-separated pretty items, each on its own indented line. -/
def prettyItems : Nat → Value → List Value → String
  | ind, x, [] => indentStr ind ++ toJsonPrettyAt ind x
  | ind, x, y :: ys =>
      indentStr ind ++ toJsonPrettyAt ind x ++ ",\n" ++ prettyItems ind y ys
termination_by i x xs => sizeOf x + sizeOf xs

/-- Newline-separated pretty fields, each on its own indented line. -/
def prettyFields : Nat → (String × Value) → List (String × Value) → String
  | ind, (k, v), [] => indentStr ind ++ quoteStr k ++ ": " ++ toJsonPrettyAt ind v
  | ind, (k, v), g :: gs =>
      indentStr ind ++ quoteStr k ++ ": " ++ toJsonPrettyAt ind v
        ++ ",\n" ++ prettyFields ind g gs
termination_by i f fs => sizeOf f + sizeOf fs

end

/-- Top-level pretty serialization. -/
def toJsonPretty (v : Value) : String :=
  toJsonPrettyAt 0 v

/-- Open options of std `fs::OpenOptions`, one boolean per builder flag. -/
structure OpenOptions where
  readFlag : Bool := false
  writeFlag : Bool := false
  appendFlag : Bool := false
  truncateFlag : Bool := false
  createFlag : Bool := false
  createNewFlag : Bool := false
deriving DecidableEq

/-- Builder start state `OpenOptions::new()`. -/
def OpenOptions.new : OpenOptions := {}

/-- Builder call `read(b)`. -/
def OpenOptions.read (o : OpenOptions) (b : Bool) : OpenOptions :=
  { o with readFlag := b }

/-- Builder call `write(b)`. -/
def OpenOptions.write (o : OpenOptions) (b : Bool) : OpenOptions :=
  { o with writeFlag := b }

/-- Builder call `append(b)`. -/
def OpenOptions.append (o : OpenOptions) (b : Bool) : OpenOptions :=
  { o with appendFlag := b }

/-- Builder call `truncate(b)`. -/
def OpenOptions.truncate (o : OpenOptions) (b : Bool) : OpenOptions :=
  { o with truncateFlag := b }

/-- Builder call `create(b)`. -/
def OpenOptions.create (o : OpenOptions) (b : Bool) : OpenOptions :=
  { o with createFlag := b }

/-- Builder call `create_new(b)`. -/
def OpenOptions.create_new (o : OpenOptions) (b : Bool) : OpenOptions :=
  { o with createNewFlag := b }

/-- Access-mode validity from the std unix backend `get_access_mode`: at
least one of read, write, append must be requested, otherwise EINVAL. -/
def OpenOptions.accessOk (o : OpenOptions) : Bool :=
  o.readFlag || o.writeFlag || o.appendFlag

/-- Creation-mode validity from the std unix backend `get_creation_mode`:
truncate or creation flags without write or append access are EINVAL, as is
truncate combined with append unless create_new is set. -/
def OpenOptions.creationOk (o : OpenOptions) : Bool :=
  match o.writeFlag, o.appendFlag with
  | true, false => true
  | false, false => !(o.truncateFlag || o.createFlag || o.createNewFlag)
  | _, true => !(o.truncateFlag && !o.createNewFlag)

/-- Handle to an opened file: its path and whether writes append. -/
structure FileHandle where
  path : String
  appendMode : Bool
deriving DecidableEq

/-- Opening a path over the flat filesystem, following the std unix backend:
flag validation first, then create_new exclusivity, creation of missing
files when permitted, truncation on open when requested. -/
def OpenOptions.openFile (o : OpenOptions) (fs : FS) (path : String) :
    Except IoErr (FileHandle × FS) :=
  if !o.accessOk then .error .InvalidInput
  else if !o.creationOk then .error .InvalidInput
  else
    match lookupKey path fs with
    | some _ =>
      if o.createNewFlag then .error .AlreadyExists
      else if o.truncateFlag then .ok (⟨path, o.appendFlag⟩, upsertKey path "" fs)
      else .ok (⟨path, o.appendFlag⟩, fs)
    | none =>
      if o.createFlag || o.createNewFlag then
        .ok (⟨path, o.appendFlag⟩, upsertKey path "" fs)
      else .error .NotFound

/-- Writing a whole buffer through a handle (`write_all` after an open):
with the append flag the text lands after the existing content, otherwise
at position zero of the file, which the modelled call sites had already
truncated on open. -/
def FileHandle.write_all (h : FileHandle) (text : String) (fs : FS) : FS :=
  if h.appendMode then
    upsertKey h.path ((lookupKey h.path fs).getD "" ++ text) fs
  else
    upsertKey h.path text fs

/-- Read-only options of `File::open`. -/
def readOnlyOptions : OpenOptions :=
  OpenOptions.new.read true

/-- Environment builder state of std `sys_common::process::CommandEnv`:
a clear marker plus explicit changes, where a pair mapping to none is an
explicit removal. -/
structure CommandEnv where
  clearFlag : Bool := false
  vars : List (String × Option String) := []
deriving DecidableEq

/-- Std `CommandEnv::set`: record an explicit assignment. -/
def CommandEnv.set (e : CommandEnv) (k v : String) : CommandEnv :=
  { e with vars := upsertKey k (some v) e.vars }

/-- Std `CommandEnv::clear`: set the clear marker AND drop every explicit
change recorded so far. -/
def CommandEnv.clear (e : CommandEnv) : CommandEnv :=
  { e with clearFlag := true, vars := [] }

/-- Std `CommandEnv::remove`: after a clear, erase the explicit entry;
otherwise record an explicit removal. -/
def CommandEnv.remove (e : CommandEnv) (k : String) : CommandEnv :=
  if e.clearFlag then { e with vars := eraseKey k e.vars }
  else { e with vars := upsertKey k none e.vars }

/-- Std `CommandEnv::capture`: the environment the child receives, given the
parent environment: start from the parent unless cleared, then apply every
explicit change in order. -/
def CommandEnv.capture (e : CommandEnv) (parent : List (String × String)) :
    List (String × String) :=
  e.vars.foldl
    (fun acc p =>
      match p.2 with
      | some v => upsertKey p.1 v acc
      | none => eraseKey p.1 acc)
    (if e.clearFlag then [] else parent)

/-- Stdio configuration of one stream of a std `process::Command`. -/
inductive StdioCfg where
  | piped
  | inherit
deriving DecidableEq

/-- Configuration state of a std `process::Command`: program, accumulated
arguments, environment builder, working directory override, and the three
stream configurations (none means the spawn default). -/
structure ProcCommand where
  program : String
  argsList : List String := []
  env : CommandEnv := {}
  cwd : Option String := none
  stdin_cfg : Option StdioCfg := none
  stdout_cfg : Option StdioCfg := none
  stderr_cfg : Option StdioCfg := none
deriving DecidableEq

/-- Std `Command::new`. -/
def ProcCommand.new (prog : String) : ProcCommand :=
  { program := prog }

/-- Std `Command::args`: appends to the argument list. -/
def ProcCommand.args (c : ProcCommand) (xs : List String) : ProcCommand :=
  { c with argsList := c.argsList ++ xs }

/-- Std `Command::envs`: sets each pair in iteration order. -/
def ProcCommand.envs (c : ProcCommand) (xs : List (String × String)) : ProcCommand :=
  { c with env := xs.foldl (fun e p => e.set p.1 p.2) c.env }

/-- Std `Command::env_clear`. -/
def ProcCommand.env_clear (c : ProcCommand) : ProcCommand :=
  { c with env := c.env.clear }

/-- Std `Command::env_remove`. -/
def ProcCommand.env_remove (c : ProcCommand) (k : String) : ProcCommand :=
  { c with env := c.env.remove k }

/-- Std `Command::current_dir`. -/
def ProcCommand.current_dir (c : ProcCommand) (d : String) : ProcCommand :=
  { c with cwd := some d }

/-- Spawned child handle: the three stream ends are present only when the
matching stream was configured as a pipe before the spawn. -/
structure Child where
  stdin : Option Unit
  stdout : Option Unit
  stderr : Option Unit
deriving DecidableEq

/-- Pipe-end presence after `spawn()`: an unconfigured stream defaults to
inherit, so no handle is produced for it. -/
def pipeOf : Option StdioCfg → Option Unit
  | some .piped => some ()
  | _ => none

/-- Std `Command::spawn`, restricted to the stream-handle shape the
dispatcher observes. -/
def ProcCommand.spawn (c : ProcCommand) : Child :=
  ⟨pipeOf c.stdin_cfg, pipeOf c.stdout_cfg, pipeOf c.stderr_cfg⟩

/-- Launch descriptor from src/lib.rs `struct CommandBuilder`. -/
structure CommandBuilder where
  args : Option (List String) := none
  env_clear : Option Bool := none
  envs : Option (List (String × String)) := none
  remove_envs : Option (List String) := none
  stdin : Option String := none
  stdout : Option String := none
  stderr : Option String := none
  current_dir : Option String := none
  stdout_append : Option Bool := none
  stderr_append : Option Bool := none
deriving DecidableEq

/-- Configuration phase of `CommandBuilder::apply` (src/lib.rs lines
111-127): arguments, then envs, then the optional env_clear, then the
env removals, then the optional working directory. -/
def CommandBuilder.applyConfig (cb : CommandBuilder) (cmd0 : ProcCommand) : ProcCommand :=
  let c1 := match cb.args with
    | some a => cmd0.args a
    | none => cmd0
  let c2 := c1.envs (cb.envs.getD [])
  let c3 := if is_true cb.env_clear then c2.env_clear else c2
  let c4 := (cb.remove_envs.getD []).foldl (fun c n => c.env_remove n) c3
  match cb.current_dir with
  | some d => c4.current_dir d
  | none => c4

/-- Environment the child spawned by a `command` dispatch receives, given
the parent environment of the bridge. -/
def spawnedEnv (cb : CommandBuilder) (prog : String)
    (parent : List (String × String)) : List (String × String) :=
  ((cb.applyConfig (ProcCommand.new prog)).env).capture parent

/-- Options used for a stdout or stderr redirection target (src/lib.rs
lines 132-147): write, create, truncate unless the append flag is true,
append when it is. -/
def outOptions (app : Option Bool) : OpenOptions :=
  (((OpenOptions.new.write true).create true).truncate (is_false app)).append (is_true app)

/-- Opening an optional redirection target; absence opens nothing. -/
def openOpt (o : OpenOptions) (fs : FS) :
    Option String → (Except IoErr (Option FileHandle)) × FS
  | none => (.ok none, fs)
  | some p =>
    match o.openFile fs p with
    | .error e => (.error e, fs)
    | .ok (h, fs') => (.ok (some h), fs')

/-- Open phase of `CommandBuilder::apply` (src/lib.rs lines 129-147): the
stdin target read-only, then the stdout target, then the stderr target,
each one fallible and opened in that order, all before any spawn. -/
def CommandBuilder.applyOpens (cb : CommandBuilder) (fs : FS) :
    (Except IoErr (Option FileHandle × Option FileHandle × Option FileHandle)) × FS :=
  match openOpt readOnlyOptions fs cb.stdin with
  | (.error e, fs₁) => (.error e, fs₁)
  | (.ok hIn, fs₁) =>
    match openOpt (outOptions cb.stdout_append) fs₁ cb.stdout with
    | (.error e, fs₂) => (.error e, fs₂)
    | (.ok hOut, fs₂) =>
      match openOpt (outOptions cb.stderr_append) fs₂ cb.stderr with
      | (.error e, fs₃) => (.error e, fs₃)
      | (.ok hErr, fs₃) => (.ok (hIn, hOut, hErr), fs₃)

/-- Result of one stream-copy task (src/lib.rs lines 155-165): nothing was
copied when no target file was given, otherwise the oracle-provided result
of `io::copy`. This is the `Option::map` plus `transpose` of the source. -/
def mkJob (fileOpt : Option FileHandle) (cp : Except IoErr Nat) :
    Except IoErr (Option Nat) :=
  match fileOpt with
  | none => .ok none
  | some _ => cp.map some

/-- Join loop of `CommandBuilder::apply` (src/lib.rs lines 167-169): the
outcomes are consumed in list order and the first error short-circuits. -/
def joinAll : List (Except IoErr (Option Nat)) → Except IoErr Unit
  | [] => .ok ()
  | j :: rest =>
    match j with
    | .error e => .error e
    | .ok _ => joinAll rest

/-- Overall result of `CommandBuilder::apply`: a connected child, an error,
or a panic from one of the three stream-handle unwraps. -/
inductive ApplyOut where
  | ok (c : Child)
  | err (e : Error)
  | panicked
deriving DecidableEq

/-- Full model of `CommandBuilder::apply` (src/lib.rs lines 91-172).
Parameters: the base command, the filesystem, the spawn closure `f`, and
the oracle results of the three `io::copy` calls. Returns the outcome, the
filesystem after the opens, and whether `f` was ever invoked. The three
`child.stream.take().unwrap()` calls of the source are the match on the
stream handles: any absent handle is the panic branch. -/
def CommandBuilder.applyM (cb : CommandBuilder) (cmd0 : ProcCommand) (fs : FS)
    (f : ProcCommand → Except Error Child)
    (cpIn cpOut cpErr : Except IoErr Nat) : ApplyOut × FS × Bool :=
  let cmd := cb.applyConfig cmd0
  match cb.applyOpens fs with
  | (.error e, fs') => (.err (.IoError e), fs', false)
  | (.ok (hIn, hOut, hErr), fs') =>
    match f cmd with
    | .error e => (.err e, fs', true)
    | .ok child =>
      match child.stdin, child.stdout, child.stderr with
      | some _, some _, some _ =>
        (match joinAll [mkJob hIn cpIn, mkJob hOut cpOut, mkJob hErr cpErr] with
         | .error e => (.err (.IoError e), fs', true)
         | .ok _ => (.ok child, fs', true))
      | _, _, _ => (.panicked, fs', true)

/-- Registered child process as seen by `wait_id` and `kill_id`: the oracle
results of waiting (exit status, possibly codeless), waiting with captured
output (lossy stdout, lossy stderr, status), and killing. -/
structure ChildProc where
  wait : Except IoErr (Option Int)
  wait_with_output : Except IoErr (String × String × Option Int)
  kill : Except IoErr Unit

/-- Process registry of src/lib.rs `Context`: handle to owned child. -/
abbrev Registry := List (Nat × ChildProc)

/-- Removal of a handle (std `HashMap::remove`): the entry for the handle,
if any, together with the map without it. -/
def removeKey (id : Nat) : Registry → Option ChildProc × Registry
  | [] => (none, [])
  | p :: rest =>
    if p.1 = id then (some p.2, rest)
    else
      let (r, rest') := removeKey id rest
      (r, p :: rest')

/-- Src/lib.rs `Context::child`: consuming lookup; a missing handle is the
`InvalidProcessorId` error and the registry is left without the handle. -/
def Context.child (reg : Registry) (id : Nat) : Except Error ChildProc × Registry :=
  match removeKey id reg with
  | (some c, reg') => (.ok c, reg')
  | (none, reg') => (.error (.InvalidProcessorId id), reg')

/-- Src/lib.rs `path_it`: a path is converted to a JSON string when it is
valid UTF-8, otherwise the call fails with `InvalidString` of the lossy
rendering. -/
def path_it : OsString → Except Error Value
  | .utf8 s => .ok (.str s)
  | .nonUtf8 l => .error (.InvalidString l)

/-- Src/lib.rs `oss_it`: same conversion for environment values. -/
def oss_it : OsString → Except Error Value
  | .utf8 s => .ok (.str s)
  | .nonUtf8 l => .error (.InvalidString l)

/-- Metadata facts the oracle reports for one path, with the three
timestamps as fallible opaque time points. -/
structure Metadata where
  readonly : Bool
  is_file : Bool
  is_dir : Bool
  len : Nat
  accessed : Except IoErr Nat
  modified : Except IoErr Nat
  created : Except IoErr Nat
  is_symlink : Bool

/-- Oracle for everything the dispatcher obtains from the operating system
or from external libraries. Filesystem content itself lives in the state. -/
structure World where
  read_dir : String → Except IoErr (List (Except IoErr OsString))
  read_link : String → Except IoErr OsString
  metadata : String → Except IoErr Metadata
  symlink_metadata : String → Except IoErr Metadata
  stdin_all : Except IoErr String
  stdin_line : Except IoErr String
  current_dir : Except IoErr OsString
  temp_dir : OsString
  utc_string : Nat → String
  system : String → List String → Except IoErr (Option Int)
  popen : String → List String → Except IoErr (String × Option Int)
  copy_in : Except IoErr Nat
  copy_out : Except IoErr Nat
  copy_err : Except IoErr Nat
  cmd_wait : Except IoErr (String × String × Option Int)
  pid : Nat
  random_u64 : Nat
  random_float_val : Value

/-- Src/lib.rs `time_it`: UTC rendering of a system time point, delegated
to the time library oracle. -/
def time_it (w : World) (t : Nat) : String :=
  w.utc_string t

/-- Mutable state a dispatch can observe or change: flat filesystem,
process environment, process registry, and the bytes written so far to the
bridge process own stdout. -/
structure BState where
  fs : FS
  env : List (String × OsString)
  registry : Registry
  out : String

/-- State at bridge startup (`Context::default()`): empty registry. -/
def initState (fs : FS) (env : List (String × OsString)) : BState :=
  { fs := fs, env := env, registry := [], out := "" }

/-- Command union from src/lib.rs `enum Command`; the `exists` variant is
named `existsFile` because `exists` is reserved in Lean. -/
inductive Command where
  | read (path : String)
  | write (path : String) (text : String) (must_new : Option Bool)
  | append (path : String) (text : String) (must_exist : Option Bool)
  | read_dir (path : String)
  | read_link (path : String)
  | metadata (path : String)
  | metadata_extra (path : String)
  | existsFile (path : String)
  | is_symlink (path : String)
  | is_dir (path : String)
  | is_file (path : String)
  | print (v : Value)
  | println (v : Value)
  | pretty (v : Value)
  | pretty_pipe (v : Value)
  | stdin
  | stdin_line
  | current_dir
  | temp_dir
  | get_env (name : String)
  | set_env (name : String) (value : String)
  | remove_env (name : String)
  | system (prog : String) (args : List String)
  | popen (prog : String) (args : List String)
  | command (prog : String) (builder : CommandBuilder)
  | wait_id (id : Nat) (output : Option Bool)
  | kill_id (id : Nat)
  | process_id
  | random
  | random_float
  | exit (code : Int)

/-- Outcome of one dispatch: a JSON result, a typed error, a panic of the
bridge process, or deliberate process termination by the `exit` variant. -/
inductive Outcome where
  | ok (v : Value)
  | err (e : Error)
  | panicked
  | exited (code : Int)

/-- JSON shape shared by the `command` and `wait_id` output results
(src/lib.rs lines 395-399 and 407-411): captured stdout, captured stderr,
and the status with the sentinel substitution. -/
def outputJson (so se : String) (code : Option Int) : Value :=
  .obj [("stdout", .str so), ("stderr", .str se),
        ("status", .num (exitCodeOrNone code))]

/-- Collection of `read_dir` entries (src/lib.rs lines 267-272): each entry
error is converted into the dispatcher error, each entry path must be valid
text, and the first failure aborts the collection. -/
def collectPaths : List (Except IoErr OsString) → Except Error (List Value)
  | [] => .ok []
  | e :: rest =>
    match e with
    | .error io => .error (.IoError io)
    | .ok p =>
      match path_it p with
      | .error er => .error er
      | .ok v =>
        match collectPaths rest with
        | .error er => .error er
        | .ok vs => .ok (v :: vs)

/-- Dispatcher from src/lib.rs `Command::run`, one branch per source match
arm, against the oracle world and the mutable state. -/
def Command.run (c : Command) (w : World) (st : BState) : Outcome × BState :=
  match c with
  | .read path =>
    match lookupKey path st.fs with
    | some content => (.ok (.str content), st)
    | none => (.err (.IoError .NotFound), st)
  | .write path text must_new =>
    match ((((OpenOptions.new.write true).create true).truncate true).create_new
        (is_true must_new)).openFile st.fs path with
    | .error e => (.err (.IoError e), st)
    | .ok (h, fs') => (.ok .null, { st with fs := h.write_all text fs' })
  | .append path text must_exist =>
    match ((OpenOptions.new.append (is_false must_exist)).create true).openFile
        st.fs path with
    | .error e => (.err (.IoError e), st)
    | .ok (h, fs') => (.ok .null, { st with fs := h.write_all text fs' })
  | .read_dir path =>
    match w.read_dir path with
    | .error e => (.err (.IoError e), st)
    | .ok entries =>
      match collectPaths entries with
      | .error e => (.err e, st)
      | .ok vals => (.ok (.arr vals), st)
  | .read_link link =>
    match w.read_link link with
    | .error e => (.err (.IoError e), st)
    | .ok p =>
      match path_it p with
      | .error e => (.err e, st)
      | .ok v => (.ok v, st)
  | .metadata path =>
    match w.metadata path with
    | .error e => (.err (.IoError e), st)
    | .ok m =>
      (.ok (.obj [("readonly", .bool m.readonly), ("is_file", .bool m.is_file),
                  ("id_dir", .bool m.is_dir), ("len", .num (m.len : Int))]), st)
  | .metadata_extra path =>
    match w.metadata path with
    | .error e => (.err (.IoError e), st)
    | .ok m =>
      match m.accessed with
      | .error e => (.err (.IoError e), st)
      | .ok ta =>
        match m.modified with
        | .error e => (.err (.IoError e), st)
        | .ok tm =>
          match m.created with
          | .error e => (.err (.IoError e), st)
          | .ok tc =>
            (.ok (.obj [("readonly", .bool m.readonly),
                        ("is_file", .bool m.is_file),
                        ("id_dir", .bool m.is_dir), ("len", .num (m.len : Int)),
                        ("accessed", .str (time_it w ta)),
                        ("modified", .str (time_it w tm)),
                        ("created", .str (time_it w tc))]), st)
  | .existsFile path =>
    (.ok (.bool (lookupKey path st.fs).isSome), st)
  | .is_symlink path =>
    match w.symlink_metadata path with
    | .error e => (.err (.IoError e), st)
    | .ok m => (.ok (.bool m.is_symlink), st)
  | .is_dir path =>
    match w.metadata path with
    | .error e => (.err (.IoError e), st)
    | .ok m => (.ok (.bool m.is_dir), st)
  | .is_file path =>
    match w.metadata path with
    | .error e => (.err (.IoError e), st)
    | .ok m => (.ok (.bool m.is_file), st)
  | .print v =>
    (.ok .null,
     { st with out := st.out ++ (match v.as_str with
        | some s => s
        | none => toJson v) })
  | .println v =>
    (.ok .null,
     { st with out := st.out ++ (match v.as_str with
        | some s => s
        | none => toJson v) ++ "\n" })
  | .pretty v =>
    (.ok .null, { st with out := st.out ++ toJsonPretty v ++ "\n" })
  | .pretty_pipe v =>
    (.ok .null, { st with out := st.out ++ toJson v ++ "\n" })
  | .stdin =>
    match w.stdin_all with
    | .error e => (.err (.IoError e), st)
    | .ok s => (.ok (.str s), st)
  | .stdin_line =>
    match w.stdin_line with
    | .error e => (.err (.IoError e), st)
    | .ok s => (.ok (.str s), st)
  | .current_dir =>
    match w.current_dir with
    | .error e => (.err (.IoError e), st)
    | .ok p =>
      match path_it p with
      | .error e => (.err e, st)
      | .ok v => (.ok v, st)
  | .temp_dir =>
    match path_it w.temp_dir with
    | .error e => (.err e, st)
    | .ok v => (.ok v, st)
  | .get_env name =>
    match lookupKey name st.env with
    | none => (.ok .null, st)
    | some os =>
      match oss_it os with
      | .error e => (.err e, st)
      | .ok v => (.ok v, st)
  | .set_env name value =>
    (.ok .null, { st with env := upsertKey name (OsString.utf8 value) st.env })
  | .remove_env name =>
    (.ok .null, { st with env := eraseKey name st.env })
  | .system prog args =>
    match w.system prog args with
    | .error e => (.err (.IoError e), st)
    | .ok code => (.ok (.num (exitCodeOrNone code)), st)
  | .popen prog args =>
    match w.popen prog args with
    | .error e => (.err (.IoError e), st)
    | .ok (so, code) =>
      (.ok (.obj [("stdout", .str so), ("status", .num (exitCodeOrNone code))]), st)
  | .command prog builder =>
    let r := builder.applyM (ProcCommand.new prog) st.fs
      (fun cmd => .ok cmd.spawn) w.copy_in w.copy_out w.copy_err
    let st' := { st with fs := r.2.1 }
    match r.1 with
    | .panicked => (.panicked, st')
    | .err e => (.err e, st')
    | .ok _child =>
      match w.cmd_wait with
      | .error e => (.err (.IoError e), st')
      | .ok (so, se, code) => (.ok (outputJson so se code), st')
  | .wait_id id output =>
    if is_true output then
      match Context.child st.registry id with
      | (.error e, reg') => (.err e, { st with registry := reg' })
      | (.ok c, reg') =>
        match c.wait_with_output with
        | .error e => (.err (.IoError e), { st with registry := reg' })
        | .ok (so, se, code) =>
          (.ok (outputJson so se code), { st with registry := reg' })
    else
      match Context.child st.registry id with
      | (.error e, reg') => (.err e, { st with registry := reg' })
      | (.ok c, reg') =>
        match c.wait with
        | .error e => (.err (.IoError e), { st with registry := reg' })
        | .ok code =>
          (.ok (.num (exitCodeOrNone code)), { st with registry := reg' })
  | .kill_id id =>
    match Context.child st.registry id with
    | (.error e, reg') => (.err e, { st with registry := reg' })
    | (.ok c, reg') =>
      match c.kill with
      | .error e => (.err (.IoError e), { st with registry := reg' })
      | .ok _ => (.ok .null, { st with registry := reg' })
  | .process_id => (.ok (.num (w.pid : Int)), st)
  | .random => (.ok (.num (w.random_u64 : Int)), st)
  | .random_float => (.ok w.random_float_val, st)
  | .exit code => (.exited code, st)

/-- Bridge loop over a list of decoded commands, each dispatched against
its own oracle world: the loop stops when the process panics or exits,
otherwise the envelope is written and the loop continues. -/
def runSeq : List (Command × World) → BState → BState
  | [], st => st
  | (c, w) :: rest, st =>
    let r := c.run w st
    match r.1 with
    | .panicked => r.2
    | .exited _ => r.2
    | .ok _ => runSeq rest r.2
    | .err _ => runSeq rest r.2

/-- Concrete oracle world used by closed counterexamples and witnesses. -/
def w0 : World := {
  read_dir := fun _ => .ok []
  read_link := fun _ => .error .NotFound
  metadata := fun _ => .error .NotFound
  symlink_metadata := fun _ => .error .NotFound
  stdin_all := .ok ""
  stdin_line := .ok ""
  current_dir := .ok (.utf8 "/")
  temp_dir := .utf8 "/tmp"
  utc_string := fun _ => "1970-01-01 0:00:00.0 +00:00:00"
  system := fun _ _ => .ok (some 0)
  popen := fun _ _ => .ok ("", some 0)
  copy_in := .ok 0
  copy_out := .ok 0
  copy_err := .ok 0
  cmd_wait := .ok ("", "", some 0)
  pid := 1
  random_u64 := 4
  random_float_val := .num 0 }

/-- Concrete oracle world whose child processes die by signal: every exit
status carries no code. -/
def wSig : World :=
  { w0 with
    system := fun _ _ => .ok none
    popen := fun _ _ => .ok ("hi", none)
    cmd_wait := .ok ("", "", none) }

/-- Concrete start state over an empty filesystem and environment. -/
def st0 : BState := initState [] []

/-- Launch descriptor with every field absent. -/
def cbEmpty : CommandBuilder := {}

/-- Concrete signal-killed registered child for witnesses. -/
def c0 : ChildProc := ⟨.ok none, .ok ("", "", none), .ok ()⟩

/-- Modelled from the spec: the first failing outcome among the three join
results, in stdin-task, stdout-task, stderr-task order (spec section 4.1
item 7). Compared against the join loop translated from the source. -/
def firstFailingOutcome (j1 j2 j3 : Except IoErr (Option Nat)) : Option IoErr :=
  match j1 with
  | .error e => some e
  | .ok _ =>
    match j2 with
    | .error e => some e
    | .ok _ =>
      match j3 with
      | .error e => some e
      | .ok _ => none

/-- Launch descriptor that clears the environment and sets one variable. -/
def cbC2 : CommandBuilder :=
  { cbEmpty with env_clear := some true, envs := some [("A", "1")] }

/-- Launch descriptor whose stdin redirection target does not exist. -/
def cb9 : CommandBuilder := { cbEmpty with stdin := some "nope" }

/-- Child whose three standard streams are all piped. -/
def childPiped : Child := ⟨some (), some (), some ()⟩

/-- Start state whose registry holds exactly the handle 5. -/
def stReg : BState := { st0 with registry := [(5, c0)] }

/-- Lookup after insert-or-replace of the same key yields the new value. -/
theorem lookupKey_upsertKey_self {α : Type} (k : String) (v : α)
    (l : List (String × α)) : lookupKey k (upsertKey k v l) = some v := by
  induction l with
  | nil => simp [upsertKey, lookupKey]
  | cons p rest ih =>
    by_cases hp : p.1 = k
    · simp [upsertKey, hp, lookupKey]
    · simp [upsertKey, hp, lookupKey, ih]

/-- Environment projection of the fold of `env_remove` calls. -/
theorem env_of_foldl_env_remove (l : List String) (c : ProcCommand) :
    (l.foldl (fun c n => c.env_remove n) c).env
      = l.foldl (fun e n => e.remove n) c.env := by
  induction l generalizing c with
  | nil => rfl
  | cons n rest ih =>
    rw [List.foldl_cons, List.foldl_cons, ih]
    rfl

/-- Removals leave an already-cleared, empty environment builder unchanged. -/
theorem foldl_remove_cleared (l : List String) :
    l.foldl (fun e n => e.remove n) ⟨true, []⟩ = (⟨true, []⟩ : CommandEnv) := by
  induction l with
  | nil => rfl
  | cons n rest ih => simpa [CommandEnv.remove, eraseKey] using ih

/-- Registry left by a consuming lookup is the registry after removal,
whether or not the handle was present. -/
theorem Context.child_snd (reg : Registry) (id : Nat) :
    (Context.child reg id).2 = (removeKey id reg).2 := by
  unfold Context.child
  split <;> simp_all

/-- Removing an absent handle finds nothing and keeps the registry. -/
theorem removeKey_of_not_mem (id : Nat) (r : Registry)
    (h : id ∉ r.map Prod.fst) : removeKey id r = (none, r) := by
  induction r with
  | nil => rfl
  | cons p rest ih =>
    simp only [List.map_cons, List.mem_cons, not_or] at h
    obtain ⟨h1, h2⟩ := h
    have hne : ¬ p.1 = id := fun hh => h1 hh.symm
    simp [removeKey, hne, ih h2]

/-- On a registry with no duplicate handles, removal leaves the handle
absent. -/
theorem not_mem_removeKey_snd (id : Nat) (r : Registry)
    (h : (r.map Prod.fst).Nodup) : id ∉ ((removeKey id r).2).map Prod.fst := by
  induction r with
  | nil => simp [removeKey]
  | cons p rest ih =>
    simp only [List.map_cons, List.nodup_cons] at h
    obtain ⟨hp, hrest⟩ := h
    by_cases he : p.1 = id
    · rw [removeKey, if_pos he]
      exact he ▸ hp
    · rcases hrk : removeKey id rest with ⟨r1, rest'⟩
      have ih2 := ih hrest
      rw [hrk] at ih2
      rw [removeKey, if_neg he, hrk]
      simp only [List.map_cons, List.mem_cons, not_or]
      exact ⟨fun hh => he hh.symm, ih2⟩

/-- Handle list after a removal is a sublist of the original handle list. -/
theorem removeKey_snd_map_sublist (id : Nat) (r : Registry) :
    List.Sublist (((removeKey id r).2).map Prod.fst) (r.map Prod.fst) := by
  induction r with
  | nil => simp [removeKey]
  | cons p rest ih =>
    by_cases he : p.1 = id
    · rw [removeKey, if_pos he]
      exact List.sublist_cons_self _ _
    · rcases hrk : removeKey id rest with ⟨r1, rest'⟩
      rw [hrk] at ih
      rw [removeKey, if_neg he, hrk]
      simp only [List.map_cons]
      exact List.Sublist.cons₂ _ ih

/-- Registry left by a `wait_id` dispatch: the consumed handle is removed,
whatever the wait itself returns. -/
theorem wait_id_registry (w : World) (st : BState) (id : Nat) (o : Option Bool) :
    (((Command.wait_id id o).run w st).2).registry = (removeKey id st.registry).2 := by
  rcases hc : Context.child st.registry id with ⟨res, reg'⟩
  have h2 : reg' = (removeKey id st.registry).2 := by
    have h3 := Context.child_snd st.registry id
    rw [hc] at h3
    exact h3
  cases ho : is_true o
  · cases res with
    | error e => simp only [Command.run, ho, Bool.false_eq_true, if_false, hc]; exact h2
    | ok c =>
      rcases hcw : c.wait with e | code <;>
        simp only [Command.run, ho, Bool.false_eq_true, if_false, hc, hcw] <;> exact h2
  · cases res with
    | error e => simp only [Command.run, ho, if_true, hc]; exact h2
    | ok c =>
      rcases hcw : c.wait_with_output with e | out
      · simp only [Command.run, ho, if_true, hc, hcw]
        exact h2
      · rcases out with ⟨so, se, code⟩
        simp only [Command.run, ho, if_true, hc, hcw]
        exact h2

/-- Registry left by a `kill_id` dispatch: the consumed handle is removed,
whatever the kill itself returns. -/
theorem kill_id_registry (w : World) (st : BState) (id : Nat) :
    (((Command.kill_id id).run w st).2).registry = (removeKey id st.registry).2 := by
  rcases hc : Context.child st.registry id with ⟨res, reg'⟩
  have h2 : reg' = (removeKey id st.registry).2 := by
    have h3 := Context.child_snd st.registry id
    rw [hc] at h3
    exact h3
  cases res with
  | error e => simp only [Command.run, hc]; exact h2
  | ok c =>
    rcases hck : c.kill with e | u <;> simp only [Command.run, hc, hck] <;> exact h2

/-- A handle absent from the registry makes both `wait_id` and `kill_id`
fail with the invalid-handle error. -/
theorem wait_kill_unknown (w : World) (st : BState) (id : Nat) (o : Option Bool)
    (h : id ∉ st.registry.map Prod.fst) :
    ((Command.wait_id id o).run w st).1 = .err (.InvalidProcessorId id)
    ∧ ((Command.kill_id id).run w st).1 = .err (.InvalidProcessorId id) := by
  have hrk := removeKey_of_not_mem id st.registry h
  have hc : Context.child st.registry id
      = (.error (.InvalidProcessorId id), st.registry) := by
    unfold Context.child
    rw [hrk]
  constructor
  · cases ho : is_true o
    · simp only [Command.run, ho, Bool.false_eq_true, if_false, hc]
    · simp only [Command.run, ho, if_true, hc]
  · simp only [Command.run, hc]

/-- No dispatch of any variant populates an empty registry. -/
theorem run_preserves_empty_registry (c : Command) (w : World) (st : BState)
    (h : st.registry = []) : ((c.run w st).2).registry = [] := by
  cases c <;>
    first
      | (rw [wait_id_registry, h]; rfl)
      | (rw [kill_id_registry, h]; rfl)
      | (simp only [Command.run]; (repeat' split) <;> exact h)

/-- The bridge loop preserves registry emptiness across any command list. -/
theorem runSeq_empty (cmds : List (Command × World)) (st : BState)
    (h : st.registry = []) : (runSeq cmds st).registry = [] := by
  induction cmds generalizing st with
  | nil => exact h
  | cons p rest ih =>
    obtain ⟨c, w⟩ := p
    have h2 := run_preserves_empty_registry c w st h
    simp only [runSeq]
    split <;> first | exact h2 | exact ih _ h2

/-- C1: the claim states that every `command` dispatch spawns the child
with its three standard streams configured as pipes, so the three
stream-handle unwraps never panic. The code never configures any stdio on
the command it builds, so `spawn()` defaults to inherited streams, every
stream handle of the child is absent, and the very first
`child.stdin.take().unwrap()` hits its panic branch on every dispatch:
evaluated here at the failing input, the `command` dispatch of the program
named sh with the empty launch descriptor. -/
theorem claim_C1_command_dispatch_panics :
    (cbEmpty.applyConfig (ProcCommand.new "sh")).stdin_cfg = none
    ∧ (ProcCommand.spawn (cbEmpty.applyConfig (ProcCommand.new "sh"))).stdin = none
    ∧ ((Command.command "sh" cbEmpty).run w0 st0).1 = Outcome.panicked :=
  ⟨rfl, rfl, rfl⟩

/-- C2 counterexample: the claim states that with `env_clear` true every
pair of `envs` not named in `remove_envs` survives into the child
environment. For the descriptor that clears the environment and sets the
pair mapping A to 1, with no removals, the child environment does not
contain A at all, because the source applies `envs` before `env_clear` and
the std `env_clear` also erases explicitly set variables. -/
theorem claim_C2_counterexample :
    is_true cbC2.env_clear = true
    ∧ ("A", "1") ∈ cbC2.envs.getD []
    ∧ cbC2.remove_envs = none
    ∧ lookupKey "A" (spawnedEnv cbC2 "sh" [("A", "0"), ("B", "2")]) = none := by
  refine ⟨rfl, ?_, rfl, rfl⟩
  simp [cbC2, cbEmpty]

/-- C2 amended: the environment steps are applied in the order set
overrides, then clear, then removals, and the clear erases the overrides
just set, so whenever `env_clear` is true the spawned child environment is
empty regardless of `envs`, `remove_envs`, and the parent environment. -/
theorem claim_C2_env_clear_erases_overrides (cb : CommandBuilder)
    (prog : String) (parent : List (String × String))
    (h : is_true cb.env_clear = true) :
    spawnedEnv cb prog parent = [] := by
  have henv : (cb.applyConfig (ProcCommand.new prog)).env = ⟨true, []⟩ := by
    unfold CommandBuilder.applyConfig
    rw [h]
    cases harg : cb.args <;> cases hcd : cb.current_dir <;>
      simp [ProcCommand.current_dir, env_of_foldl_env_remove,
        ProcCommand.env_clear, CommandEnv.clear, foldl_remove_cleared]
  unfold spawnedEnv
  rw [henv]
  rfl

/-- C2 witness: the amended theorem applied to the concrete clearing
descriptor over a nonempty parent environment. -/
theorem claim_C2_witness :
    is_true cbC2.env_clear = true
    ∧ spawnedEnv cbC2 "sh" [("B", "2")] = [] :=
  ⟨rfl, claim_C2_env_clear_erases_overrides cbC2 "sh" [("B", "2")] rfl⟩

/-- C3: over any filesystem in which the target path does not exist, an
`append` dispatch with must_exist true (the may-create flag of the spec not
set) fails with an I/O error, while an `append` dispatch whose must_exist
flag is false or absent (the may-create flag set) succeeds and leaves the
file containing exactly the appended text. -/
theorem claim_C3_append_semantics (w : World) (st : BState) (path text : String)
    (h : lookupKey path st.fs = none) :
    ((Command.append path text (some true)).run w st
        = (.err (.IoError .InvalidInput), st))
    ∧ (∀ me : Option Bool, is_false me = true →
        ((Command.append path text me).run w st).1 = .ok .null
        ∧ lookupKey path ((Command.append path text me).run w st).2.fs = some text) := by
  constructor
  · rfl
  · intro me hme
    simp only [Command.run, hme]
    simp [OpenOptions.openFile, OpenOptions.accessOk, OpenOptions.creationOk,
      OpenOptions.new, OpenOptions.append, OpenOptions.create, h,
      FileHandle.write_all, lookupKey_upsertKey_self]

/-- C3 witness: the theorem applied to the empty filesystem, the path p and
the text t, for both the failing and the creating branch. -/
theorem claim_C3_witness :
    lookupKey "p" st0.fs = none
    ∧ ((Command.append "p" "t" (some true)).run w0 st0
        = (.err (.IoError .InvalidInput), st0))
    ∧ (((Command.append "p" "t" none).run w0 st0).1 = .ok .null
       ∧ lookupKey "p" ((Command.append "p" "t" none).run w0 st0).2.fs = some "t") :=
  ⟨rfl, (claim_C3_append_semantics w0 st0 "p" "t" rfl).1,
   (claim_C3_append_semantics w0 st0 "p" "t" rfl).2 none rfl⟩

/-- C4: starting from the initial state with its empty registry, any
sequence of dispatched commands leaves the registry empty (no variant ever
inserts), and consequently any `wait_id` and any `kill_id` on the resulting
state, for every handle value, fails with the invalid-handle error. -/
theorem claim_C4_registry_stays_empty (cmds : List (Command × World))
    (fs : FS) (env : List (String × OsString)) (w : World) (id : Nat)
    (o : Option Bool) :
    (runSeq cmds (initState fs env)).registry = []
    ∧ ((Command.wait_id id o).run w (runSeq cmds (initState fs env))).1
        = .err (.InvalidProcessorId id)
    ∧ ((Command.kill_id id).run w (runSeq cmds (initState fs env))).1
        = .err (.InvalidProcessorId id) := by
  have hreg : (runSeq cmds (initState fs env)).registry = [] :=
    runSeq_empty cmds _ rfl
  have hnm : id ∉ (runSeq cmds (initState fs env)).registry.map Prod.fst := by
    rw [hreg]
    simp
  exact ⟨hreg, (wait_kill_unknown w _ id o hnm).1, (wait_kill_unknown w _ id o hnm).2⟩

/-- C5: whenever a child exit status carries no code (killed by a signal),
the reported status is exactly 250, for `system`, `popen`, the JSON shape
used by `command` and by `wait_id` with output capture, and for `wait_id`
without capture; and the final exit code of the bridge equals the peer exit
code, or 250 when the peer code is unavailable. -/
theorem claim_C5_sentinel_250 (w : World) (st : BState) (prog : String)
    (args : List String) (po : String) (id : Nat) (c : ChildProc) (r' : Registry)
    (hsys : w.system prog args = .ok none)
    (hpop : w.popen prog args = .ok (po, none))
    (hchild : Context.child st.registry id = (.ok c, r'))
    (hwait : c.wait = .ok none) :
    NONE_EXIT_CODE = 250
    ∧ (Command.system prog args).run w st = (.ok (.num 250), st)
    ∧ ((Command.popen prog args).run w st).1
        = .ok (.obj [("stdout", .str po), ("status", .num 250)])
    ∧ (∀ so se : String, outputJson so se none
        = .obj [("stdout", .str so), ("stderr", .str se), ("status", .num 250)])
    ∧ ((Command.wait_id id (some false)).run w st).1 = .ok (.num 250)
    ∧ runJqExitCode none = 250
    ∧ (∀ n : Int, runJqExitCode (some n) = n) := by
  refine ⟨rfl, ?_, ?_, ?_, ?_, rfl, fun n => rfl⟩
  · simp [Command.run, hsys, exitCodeOrNone, NONE_EXIT_CODE]
  · simp [Command.run, hpop, exitCodeOrNone, NONE_EXIT_CODE]
  · intro so se
    simp [outputJson, exitCodeOrNone, NONE_EXIT_CODE]
  · simp [Command.run, is_true, hchild, hwait, exitCodeOrNone, NONE_EXIT_CODE]

/-- C5 witness: the theorem applied to the signal-killing world and the
registry holding the signal-killed child under handle 5. -/
theorem claim_C5_witness :
    wSig.system "x" [] = .ok none
    ∧ wSig.popen "x" [] = .ok ("hi", none)
    ∧ Context.child stReg.registry 5 = (.ok c0, [])
    ∧ c0.wait = .ok none
    ∧ (Command.system "x" []).run wSig stReg = (.ok (.num 250), stReg)
    ∧ ((Command.wait_id 5 (some false)).run wSig stReg).1 = .ok (.num 250) :=
  ⟨rfl, rfl, rfl, rfl,
   (claim_C5_sentinel_250 wSig stReg "x" [] "hi" 5 c0 [] rfl rfl rfl rfl).2.1,
   (claim_C5_sentinel_250 wSig stReg "x" [] "hi" 5 c0 [] rfl rfl rfl rfl).2.2.2.2.1⟩

/-- C6: over any registry with no duplicate handles, a `wait_id` or
`kill_id` dispatch consumes its handle: the handle is absent from the
resulting registry, no-duplicates is preserved, and every later `wait_id`
or `kill_id` with the same handle fails with the invalid-handle error. -/
theorem claim_C6_handle_consumed_once (st : BState) (w₁ w₂ w₃ : World)
    (h : Nat) (o₁ o₂ : Option Bool)
    (hnd : (st.registry.map Prod.fst).Nodup) :
    (h ∉ (((Command.wait_id h o₁).run w₁ st).2).registry.map Prod.fst)
    ∧ ((((Command.wait_id h o₁).run w₁ st).2).registry.map Prod.fst).Nodup
    ∧ (((Command.wait_id h o₂).run w₂ (((Command.wait_id h o₁).run w₁ st).2)).1
        = .err (.InvalidProcessorId h))
    ∧ (((Command.kill_id h).run w₂ (((Command.wait_id h o₁).run w₁ st).2)).1
        = .err (.InvalidProcessorId h))
    ∧ (h ∉ (((Command.kill_id h).run w₃ st).2).registry.map Prod.fst)
    ∧ (((Command.wait_id h o₂).run w₂ (((Command.kill_id h).run w₃ st).2)).1
        = .err (.InvalidProcessorId h))
    ∧ (((Command.kill_id h).run w₂ (((Command.kill_id h).run w₃ st).2)).1
        = .err (.InvalidProcessorId h)) := by
  have hw := wait_id_registry w₁ st h o₁
  have hk := kill_id_registry w₃ st h
  have hnmW : h ∉ (((Command.wait_id h o₁).run w₁ st).2).registry.map Prod.fst := by
    rw [hw]
    exact not_mem_removeKey_snd h st.registry hnd
  have hnmK : h ∉ (((Command.kill_id h).run w₃ st).2).registry.map Prod.fst := by
    rw [hk]
    exact not_mem_removeKey_snd h st.registry hnd
  have hndW : ((((Command.wait_id h o₁).run w₁ st).2).registry.map Prod.fst).Nodup := by
    rw [hw]
    exact List.Nodup.sublist (removeKey_snd_map_sublist h st.registry) hnd
  exact ⟨hnmW, hndW, (wait_kill_unknown w₂ _ h o₂ hnmW).1,
    (wait_kill_unknown w₂ _ h o₂ hnmW).2, hnmK,
    (wait_kill_unknown w₂ _ h o₂ hnmK).1, (wait_kill_unknown w₂ _ h o₂ hnmK).2⟩

/-- C6 witness: the theorem applied to the registry holding handle 5, with
the second call rejected after the first consumed the handle. -/
theorem claim_C6_witness :
    ((stReg.registry.map Prod.fst).Nodup)
    ∧ (((Command.wait_id 5 (some false)).run w0
          ((Command.wait_id 5 none).run w0 stReg).2).1
        = .err (.InvalidProcessorId 5)) :=
  ⟨by decide,
   (claim_C6_handle_consumed_once stReg w0 w0 w0 5 none (some false) (by decide)).2.2.1⟩

/-- C7: once the spawn succeeded and the three stream handles are present,
the apply joins the three copy-task outcomes in the fixed order stdin-task,
stdout-task, stderr-task and returns the first failing outcome as the
overall error, succeeding with the child only when none failed. -/
theorem claim_C7_join_order_first_failure (cb : CommandBuilder)
    (cmd0 : ProcCommand) (fs fs' : FS) (f : ProcCommand → Except Error Child)
    (a b c : Except IoErr Nat)
    (hIn hOut hErr : Option FileHandle) (child : Child)
    (hopen : cb.applyOpens fs = (.ok (hIn, hOut, hErr), fs'))
    (hf : f (cb.applyConfig cmd0) = .ok child)
    (hsi : child.stdin = some ()) (hso : child.stdout = some ())
    (hse : child.stderr = some ()) :
    cb.applyM cmd0 fs f a b c =
      match firstFailingOutcome (mkJob hIn a) (mkJob hOut b) (mkJob hErr c) with
      | some e => (.err (.IoError e), fs', true)
      | none => (.ok child, fs', true) := by
  simp only [CommandBuilder.applyM, hopen, hf, hsi, hso, hse]
  generalize mkJob hIn a = j1
  generalize mkJob hOut b = j2
  generalize mkJob hErr c = j3
  cases j1 <;> cases j2 <;> cases j3 <;> rfl

/-- C7 witness: the theorem applied to the empty descriptor, a spawn
closure returning a fully piped child, and a failing stdin-copy oracle. -/
theorem claim_C7_witness :
    cbEmpty.applyOpens [] = (.ok (none, none, none), [])
    ∧ childPiped.stdin = some ()
    ∧ cbEmpty.applyM (ProcCommand.new "sh") [] (fun _ => .ok childPiped)
        (.error .Other) (.ok 0) (.ok 0)
      = match firstFailingOutcome (mkJob none (.error .Other)) (mkJob none (.ok 0))
            (mkJob none (.ok 0)) with
        | some e => (.err (.IoError e), [], true)
        | none => (.ok childPiped, [], true) :=
  ⟨rfl, rfl,
   claim_C7_join_order_first_failure cbEmpty (ProcCommand.new "sh") [] []
     (fun _ => .ok childPiped) (.error .Other) (.ok 0) (.ok 0)
     none none none childPiped rfl rfl rfl rfl rfl⟩

/-- C8 counterexample: the claim states that all four output variants write
a string-typed JSON value as raw text without quotes. The `pretty_pipe` and
`pretty` dispatches of the JSON string a write its serialized, quoted form
followed by a newline, not the raw text followed by a newline. -/
theorem claim_C8_counterexample :
    ((Command.pretty_pipe (Value.str "a")).run w0 st0).2.out = "\"a\"\n"
    ∧ ((Command.pretty (Value.str "a")).run w0 st0).2.out = "\"a\"\n"
    ∧ ((Command.pretty_pipe (Value.str "a")).run w0 st0).2.out ≠ "a" ++ "\n" := by
  refine ⟨?_, ?_, ?_⟩ <;>
    · simp only [Command.run, toJson, toJsonPretty, toJsonPrettyAt]
      decide

/-- C8 amended: only `print` and `println` write string-typed values as raw
text; `pretty` serializes every value indented and `pretty_pipe` compactly,
both quoting strings; `println`, `pretty` and `pretty_pipe` append a
trailing newline while `print` does not. -/
theorem claim_C8_output_variants (v : Value) (w : World) (st : BState) :
    (((Command.print v).run w st).2.out
        = st.out ++ (match v.as_str with | some s => s | none => toJson v))
    ∧ (((Command.println v).run w st).2.out
        = st.out ++ (match v.as_str with | some s => s | none => toJson v) ++ "\n")
    ∧ (((Command.pretty v).run w st).2.out = st.out ++ toJsonPretty v ++ "\n")
    ∧ (((Command.pretty_pipe v).run w st).2.out = st.out ++ toJson v ++ "\n")
    ∧ (∀ s : String, toJson (.str s) = "\"" ++ escapeString s ++ "\"")
    ∧ (∀ s : String, toJsonPretty (.str s) = "\"" ++ escapeString s ++ "\"") := by
  refine ⟨rfl, rfl, rfl, rfl, ?_, ?_⟩ <;>
    · intro s
      simp [toJson, toJsonPretty, toJsonPrettyAt, quoteStr]

/-- C9: the redirection targets are opened before the child is spawned:
whenever the open phase fails, the apply returns exactly that I/O error and
the spawn closure is never invoked, so no child process is created; the
stdin target options are read-only, and the stdout and stderr target
options are write and create, truncating when the append flag is false or
absent and appending when it is true. -/
theorem claim_C9_opens_before_spawn (cb : CommandBuilder) (cmd0 : ProcCommand)
    (fs : FS) (f : ProcCommand → Except Error Child)
    (a b c : Except IoErr Nat) (e : IoErr) (fs' : FS)
    (h : cb.applyOpens fs = (.error e, fs')) :
    cb.applyM cmd0 fs f a b c = (.err (.IoError e), fs', false)
    ∧ readOnlyOptions = { readFlag := true }
    ∧ (∀ app : Option Bool, outOptions app =
        { writeFlag := true, createFlag := true,
          truncateFlag := is_false app, appendFlag := is_true app }) := by
  refine ⟨?_, rfl, fun app => rfl⟩
  unfold CommandBuilder.applyM
  rw [h]

/-- C9 witness: the theorem applied to the descriptor whose stdin target is
missing from the empty filesystem. -/
theorem claim_C9_witness :
    cb9.applyOpens [] = (.error .NotFound, [])
    ∧ cb9.applyM (ProcCommand.new "sh") [] (fun c => .ok c.spawn)
        (.ok 0) (.ok 0) (.ok 0) = (.err (.IoError .NotFound), [], false) :=
  ⟨rfl, (claim_C9_opens_before_spawn cb9 (ProcCommand.new "sh") []
    (fun c => .ok c.spawn) (.ok 0) (.ok 0) (.ok 0) .NotFound [] rfl).1⟩

/-- C10: a `get_env` dispatch naming a variable unset in the environment
returns the ok result JSON null, never an error, and leaves the state
unchanged. -/
theorem claim_C10_get_env_unset_null (w : World) (st : BState) (name : String)
    (h : lookupKey name st.env = none) :
    (Command.get_env name).run w st = (.ok .null, st) := by
  simp [Command.run, h]

/-- C10 witness: the theorem applied to the empty environment and the
variable name HOME. -/
theorem claim_C10_witness :
    lookupKey "HOME" st0.env = none
    ∧ (Command.get_env "HOME").run w0 st0 = (.ok .null, st0) :=
  ⟨rfl, claim_C10_get_env_unset_null w0 st0 "HOME" rfl⟩
